import Mathlib

/-!
Verification of the filtering-and-aggregation pipeline of the job-postings
dashboard (`src/app.py`) against its design specification.

The pipeline is shallowly embedded: a pandas `DataFrame` of one MSA's
postings becomes a `List Row`; nullable numeric cells become `Option ℚ`;
nullable string cells become `Option String`.  Boolean-mask filtering,
`isin`, `value_counts`, `nlargest`, `explode`, and row-wise `mean(axis=1)`
are each translated with pandas' documented null semantics (comparisons
against null are false, `value_counts`/`groupby` drop null keys,
`mean(axis=1)` skips nulls, `explode` of an empty list yields one null row).
-/

/-- One posting record: a row of the per-MSA table after the projected read
(columns of `load_msa_data`), with the skill columns already decoded to
lists.  All cells that can be null in the source are `Option`-valued. -/
structure Row where
  title : Option String := none
  company : Option String := none
  salary_from : Option ℚ := none
  salary_to : Option ℚ := none
  min_years_experience : Option ℚ := none
  max_years_experience : Option ℚ := none
  employment_type : Option String := none
  remote_type : Option String := none
  min_edulevels : Option String := none
  soc_name : Option String := none
  naics2 : Option String := none
  skills : List String := []
  specialized_skills : List String := []
  certifications : List String := []
  common_skills : List String := []
  /-- The `Average_Salary` column does not exist until the salary-distribution
  step assigns it (line 116 of `app.py`). -/
  average_salary : Option ℚ := none
deriving DecidableEq

/-- The user-chosen filter specification: the sidebar controls of `app.py`
(employment-type multiselect, remote-type multiselect, the two experience
sliders, and the salary-range slider). -/
structure FilterSpec where
  employment_types : List String := []
  remote_types : List String := []
  min_exp : ℚ := 0
  max_exp : ℚ := 30
  salary_lo : ℚ := 0
  salary_hi : ℚ := 200000
deriving DecidableEq

/-- Pandas semantics of `series >= c` used as a boolean mask: a null cell
compares false. -/
def optGe (o : Option ℚ) (c : ℚ) : Bool :=
  match o with
  | none => false
  | some v => decide (c ≤ v)

/-- Pandas semantics of `series <= c` used as a boolean mask: a null cell
compares false. -/
def optLe (o : Option ℚ) (c : ℚ) : Bool :=
  match o with
  | none => false
  | some v => decide (v ≤ c)

/-- Pandas `series.isin(cats)` for a string column: a null cell is not a
member of any list of strings. -/
def memCat (o : Option String) (cats : List String) : Bool :=
  match o with
  | none => false
  | some s => cats.contains s

/-- Line 66–67 of `app.py`: `if job_type: filtered_df = filtered_df[... .isin(job_type)]`.
An empty selection (falsy list) skips the filter entirely. -/
def employmentStage (cats : List String) (rows : List Row) : List Row :=
  if cats.isEmpty then rows
  else rows.filter (fun r => memCat r.employment_type cats)

/-- Line 68–69 of `app.py`: the remote-type `isin` filter, skipped when the
selection is empty. -/
def remoteStage (cats : List String) (rows : List Row) : List Row :=
  if cats.isEmpty then rows
  else rows.filter (fun r => memCat r.remote_type cats)

/-- The unconditional boolean-mask filter of lines 70–75 of `app.py`:
min-experience floor, max-experience ceiling, and the inclusive salary
range, conjoined with `&`. -/
def rangeStage (spec : FilterSpec) (rows : List Row) : List Row :=
  rows.filter (fun r =>
    optGe r.min_years_experience spec.min_exp &&
    optLe r.max_years_experience spec.max_exp &&
    optGe r.salary_from spec.salary_lo &&
    optLe r.salary_to spec.salary_hi)

/-- `filtered_df` of `app.py` (lines 65–75): the three filter stages applied
in source order to the per-MSA row set. -/
def filteredDf (spec : FilterSpec) (rows : List Row) : List Row :=
  rangeStage spec (remoteStage spec.remote_types (employmentStage spec.employment_types rows))

/-- The specification's row predicate: the conjunction of the five predicate
groups of §4.3, an empty category set imposing no restriction and a null
numeric cell failing its range test.  This is the spec-side definition that
`filteredDf` is compared against. -/
def keepRowSpec (spec : FilterSpec) (r : Row) : Bool :=
  (spec.employment_types.isEmpty || memCat r.employment_type spec.employment_types) &&
  (spec.remote_types.isEmpty || memCat r.remote_type spec.remote_types) &&
  optGe r.min_years_experience spec.min_exp &&
  optLe r.max_years_experience spec.max_exp &&
  optGe r.salary_from spec.salary_lo &&
  optLe r.salary_to spec.salary_hi

/-- A fully populated sample row used in concrete evaluations. -/
def sampleRow : Row where
  min_years_experience := some 1
  max_years_experience := some 2
  salary_from := some 5
  salary_to := some 6

/-- A row with every nullable cell null. -/
def nullRow : Row := {}

/-- The salary conjuncts of the range filter (lines 73–74 of `app.py`):
`SALARY_FROM >= lo & SALARY_TO <= hi`, both inclusive, null failing. -/
def salaryFilter (lo hi : ℚ) (rows : List Row) : List Row :=
  rows.filter (fun r => optGe r.salary_from lo && optLe r.salary_to hi)

/-- First row of the specification's three-row scenario (§8). -/
def specRow1 : Row :=
  { naics2 := some "Tech", company := some "Acme", salary_from := some 50000, salary_to := some 70000 }

/-- Second row of the specification's three-row scenario (§8). -/
def specRow2 : Row :=
  { naics2 := some "Tech", company := some "Acme", salary_from := some 80000, salary_to := some 90000 }

/-- Third row of the specification's three-row scenario (§8). -/
def specRow3 : Row :=
  { naics2 := some "Unclassified Industry", company := some "Beta", salary_from := some 40000, salary_to := some 40000 }

/-- The specification's three-row scenario row set. -/
def specScenarioRows : List Row := [specRow1, specRow2, specRow3]

/-- A row sitting exactly on both salary boundaries of the range (60000, 100000). -/
def boundaryRow : Row := { salary_from := some 60000, salary_to := some 100000 }

/-- Line 56 of `app.py`: `.replace(...)` maps the exact cell value `"[None]"`
to `"Unspecified"`; null cells are untouched by `replace`. -/
def replaceNoneSentinel (c : Option String) : Option String :=
  c.map (fun s => if s = "[None]" then "Unspecified" else s)

/-- Line 57 of `app.py`: `.fillna('Unspecified')` substitutes the string for
a null cell. -/
def fillnaUnspecified (c : Option String) : String :=
  c.getD "Unspecified"

/-- `str.strip()` on the underlying character sequence: drop leading and
trailing whitespace. -/
def stripChars (cs : List Char) : List Char :=
  (((cs.dropWhile Char.isWhitespace).reverse).dropWhile Char.isWhitespace).reverse

/-- Python's `str.strip()`: trim surrounding whitespace from a string. -/
def pyStrip (s : String) : String := ⟨stripChars s.data⟩

/-- Lines 56–58 of `app.py`: the remote-type normalization — sentinel
replacement, null fill, then `.str.strip()` of surrounding whitespace. -/
def normalizeRemote (c : Option String) : String :=
  pyStrip (fillnaUnspecified (replaceNoneSentinel c))

/-- Line 116 of `app.py`: the row-wise mean over the `SALARY_FROM` and
`SALARY_TO` columns, i.e. pandas `mean(axis=1)` with its default
`skipna=True`: the mean of the non-null cells of the row, null only when
both cells are null. -/
def averageSalary (r : Row) : Option ℚ :=
  match r.salary_from, r.salary_to with
  | some a, some b => some ((a + b) / 2)
  | some a, none => some a
  | none, some b => some b
  | none, none => none

/-- Line 116 of `app.py`: `filtered_df['Average_Salary'] = ...` assigns the
new column on every row of the filtered set, in place. -/
def assignAverageSalary (t : List Row) : List Row :=
  t.map (fun r => { r with average_salary := averageSalary r })

/-- Lines 115–118 of `app.py`: the salary-distribution step. It mutates the
filtered set by assigning `Average_Salary` and histograms that column;
`px.histogram` drops null values, so the second component lists the values
that contribute to the histogram. -/
def salaryDistStep (t : List Row) : List Row × List ℚ :=
  (assignAverageSalary t, (assignAverageSalary t).filterMap (fun r => r.average_salary))

/-- The multiset of salary values contributing to the histogram. -/
def salaryContrib (t : List Row) : List ℚ := (salaryDistStep t).2

/-- A row with a salary floor but a null salary ceiling. -/
def halfNullRow : Row := { salary_from := some 50000 }

/-- Pandas `explode` on one list cell: each element becomes one output cell;
an *empty* list yields a single null cell (one output row), per the pandas
documentation of `DataFrame.explode`. -/
def explodeCell (xs : List String) : List (Option String) :=
  match xs with
  | [] => [none]
  | xs => xs.map some

/-- `df.explode(col)` (lines 122 and 159 of `app.py`): one output row per
element of the row's list cell, the originating row paired with the element;
a row with an empty list contributes one output row with a null cell. -/
def explodeRows (col : Row → List String) (t : List Row) : List (Row × Option String) :=
  t.flatMap (fun r => (explodeCell (col r)).map (fun v => (r, v)))

/-- A row with a two-element specialized-skills sequence. -/
def skillRowAB : Row := { naics2 := some "Tech", specialized_skills := ["a", "b"] }

/-- The distinct values of a series in first-occurrence order, as pandas
enumerates the categories of `value_counts`. -/
def pdUniqueAux (seen : List String) : List String → List String
  | [] => []
  | x :: xs => if x ∈ seen then pdUniqueAux seen xs else x :: pdUniqueAux (x :: seen) xs

/-- `series.unique()` restricted to non-null values. -/
def pdUnique (xs : List String) : List String := pdUniqueAux [] xs

/-- Descending-by-count order on category/count pairs. -/
def byCountDesc (a b : String × Nat) : Prop := b.2 ≤ a.2

instance : DecidableRel byCountDesc := fun a b => Nat.decLe b.2 a.2

/-- `series.value_counts()`: null cells are dropped, each distinct value is
paired with its number of occurrences, and the pairs are sorted by count
descending (stably, so ties keep first-occurrence order). -/
def valueCounts (cells : List (Option String)) : List (String × Nat) :=
  let vals := cells.filterMap id
  List.insertionSort byCountDesc ((pdUnique vals).map (fun c => (c, vals.count c)))

/-- `series.nlargest(n)`: the `n` largest entries by count, stable. -/
def nlargest (n : Nat) (ps : List (String × Nat)) : List (String × Nat) :=
  (List.insertionSort byCountDesc ps).take n

/-- Lines 92–93 of `app.py`: drop the `'Unclassified Industry'` sentinel,
count NAICS2 values, keep the ten largest. -/
def topIndustries (t : List Row) : List (String × Nat) :=
  nlargest 10 (valueCounts
    ((t.filter (fun r => !(r.naics2 == some "Unclassified Industry"))).map (fun r => r.naics2)))

/-- Lines 100–101 of `app.py`: drop the `'Unclassified Occupation'`
sentinel, count SOC-5 names, keep the ten largest. -/
def topOccupations (t : List Row) : List (String × Nat) :=
  nlargest 10 (valueCounts
    ((t.filter (fun r => !(r.soc_name == some "Unclassified Occupation"))).map (fun r => r.soc_name)))

/-- Lines 122–123 of `app.py`: explode the specialized-skills column, count
skill values (nulls from empty lists dropped by `value_counts`), keep the
ten largest. -/
def topSkills (t : List Row) : List (String × Nat) :=
  nlargest 10 (valueCounts ((explodeRows (fun r => r.specialized_skills) t).map (fun p => p.2)))

/-- Lines 130–131 of `app.py`: drop the `'Unclassified'` sentinel, count
company names, keep the ten largest. -/
def topCompanies (t : List Row) : List (String × Nat) :=
  nlargest 10 (valueCounts
    ((t.filter (fun r => !(r.company == some "Unclassified"))).map (fun r => r.company)))

/-- Line 146 of `app.py`: the full education-level distribution — no
truncation, no sentinel exclusion. -/
def educationMix (t : List Row) : List (String × Nat) :=
  valueCounts (t.map (fun r => r.min_edulevels))

/-- Ascending lexicographic order on (industry, skill) group keys with their
counts, as `groupby` sorts its keys. -/
def byKeyAsc (a b : (String × String) × Nat) : Prop :=
  a.1.1 < b.1.1 ∨ (a.1.1 = b.1.1 ∧ ¬ b.1.2 < a.1.2)

instance : DecidableRel byKeyAsc := fun _ _ => instDecidableOr

/-- First-occurrence deduplication of group keys. -/
def pdUniquePairAux (seen : List (String × String)) :
    List (String × String) → List (String × String)
  | [] => []
  | x :: xs => if x ∈ seen then pdUniquePairAux seen xs else x :: pdUniquePairAux (x :: seen) xs

/-- `groupby([industry, skill]).size()`: a null in either key column drops
the row; each surviving key pair is counted; keys are sorted ascending. -/
def groupbySize (keys : List (String × String)) : List ((String × String) × Nat) :=
  List.insertionSort byKeyAsc ((pdUniquePairAux [] keys).map (fun k => (k, keys.count k)))

/-- Lines 158–162 of `app.py`: explode the skill column, drop exploded rows
whose NAICS2 is the `'Unclassified Industry'` sentinel, group by the
(industry, skill) pair and count. -/
def skillByIndustry (col : Row → List String) (t : List Row) : List ((String × String) × Nat) :=
  let ex := (explodeRows col t).filter (fun p => !(p.1.naics2 == some "Unclassified Industry"))
  groupbySize (ex.filterMap (fun p =>
    match p.1.naics2, p.2 with
    | some i, some s => some (i, s)
    | _, _ => none))

/-- The top-industries chart block as a state transformer over the filtered
set: it reads `filtered_df` and never reassigns it. -/
def topIndustriesStep (t : List Row) : List Row × List (String × Nat) := (t, topIndustries t)

/-- The top-occupations chart block: reads the filtered set, never writes it. -/
def topOccupationsStep (t : List Row) : List Row × List (String × Nat) := (t, topOccupations t)

/-- The top-skills chart block: reads the filtered set, never writes it. -/
def topSkillsStep (t : List Row) : List Row × List (String × Nat) := (t, topSkills t)

/-- The top-companies chart block: reads the filtered set, never writes it. -/
def topCompaniesStep (t : List Row) : List Row × List (String × Nat) := (t, topCompanies t)

/-- The education-mix chart block: reads the filtered set, never writes it. -/
def educationMixStep (t : List Row) : List Row × List (String × Nat) := (t, educationMix t)

/-- One tree-map chart block: reads the filtered set, never writes it. -/
def skillByIndustryStep (col : Row → List String) (t : List Row) :
    List Row × List ((String × String) × Nat) := (t, skillByIndustry col t)

/-- Erase the assigned `Average_Salary` column. -/
def eraseAverageSalary (r : Row) : Row := { r with average_salary := none }

/-- A cell of a declared sequence-valued column as `load_msa_data` sees it:
null, a still-serialized string, or an already-parsed list of strings. -/
inductive Cell where
  | null : Cell
  | str : String → Cell
  | seq : List String → Cell
deriving DecidableEq

/-- The single-quote character. -/
def sqChar : Char := Char.ofNat 39

/-- The double-quote character. -/
def dqChar : Char := Char.ofNat 34

/-- Consume the characters of a quoted string literal up to the closing
quote `q`, returning the content and the remaining input. -/
def takeStrLit (q : Char) : List Char → Option (List Char × List Char)
  | [] => none
  | c :: cs =>
    if c = q then some ([], cs)
    else
      match takeStrLit q cs with
      | none => none
      | some (s, rest) => some (c :: s, rest)

/-- Drop leading whitespace. -/
def skipWs : List Char → List Char
  | [] => []
  | c :: cs => if c.isWhitespace then skipWs cs else c :: cs

/-- Parse the comma-separated quoted-string items of a list literal, after
the opening bracket; `fuel` bounds the recursion by the input length. -/
def parseItems (fuel : Nat) (cs : List Char) : Option (List String) :=
  match fuel with
  | 0 => none
  | fuel + 1 =>
    match skipWs cs with
    | [] => none
    | c :: rest =>
      if c = ']' then (if skipWs rest = [] then some [] else none)
      else if c = sqChar ∨ c = dqChar then
        match takeStrLit c rest with
        | none => none
        | some (s, rest2) =>
          match skipWs rest2 with
          | [] => none
          | c2 :: rest3 =>
            if c2 = ',' then
              match parseItems fuel rest3 with
              | none => none
              | some xs => some (⟨s⟩ :: xs)
            else if c2 = ']' then (if skipWs rest3 = [] then some [⟨s⟩] else none)
            else none
      else none

/-- Modelled after Python's `ast.literal_eval` restricted to what the skill
columns hold: a textual list literal of quoted strings.  A string that is
not such a literal is a malformed cell. -/
def parseListLiteral (s : String) : Except String (List String) :=
  match skipWs s.data with
  | [] => .error "malformed node or string"
  | c :: rest =>
    if c = '[' then
      match parseItems (rest.length + 1) rest with
      | some xs => .ok xs
      | none => .error "malformed node or string"
    else .error "malformed node or string"

/-- The truthiness of `pd.notnull(x)` in the guard of line 40 of `app.py`:
a scalar null is falsy and a string truthy; on an already-parsed *list*,
`pd.notnull` is elementwise, and the resulting array's truthiness is falsy
when empty, the single element's value for one element, and an "ambiguous
truth value" error for two or more. -/
def notnullTruthy : Cell → Except String Bool
  | .null => .ok false
  | .str _ => .ok true
  | .seq [] => .ok false
  | .seq [_] => .ok true
  | .seq (_ :: _ :: _) =>
    .error "truth value of an array with more than one element is ambiguous"

/-- `ast.literal_eval` applied to a cell: only a string cell parses; a null
or an already-parsed list is not a valid argument and raises. -/
def literalEvalCell : Cell → Except String (List String)
  | .str s => parseListLiteral s
  | .null => .error "literal_eval: malformed node or string"
  | .seq _ => .error "literal_eval: malformed node or string"

/-- Line 40 of `app.py`: the skill-column cleaning lambda,
`ast.literal_eval(x) if pd.notnull(x) else []`, applied cell-wise. -/
def cleanSkillCell (c : Cell) : Except String Cell := do
  let b ← notnullTruthy c
  if b then Cell.seq <$> literalEvalCell c else pure (Cell.seq [])

/-- `df['SALARY_TO'].dropna()`: the non-null salary ceilings, in row order. -/
def salaryToVals (rows : List Row) : List ℚ := rows.filterMap (fun r => r.salary_to)

/-- `series.max()`: none on an empty series (pandas yields NaN there). -/
def seriesMax : List ℚ → Option ℚ
  | [] => none
  | v :: vs => some (vs.foldl max v)

/-- Python's `int()` on a float: truncation toward zero. -/
def pyInt (q : ℚ) : Int := if 0 ≤ q then ⌊q⌋ else ⌈q⌉

/-- Line 62 of `app.py`: `int(df['SALARY_TO'].dropna().max())`, the upper
bound of the salary slider.  When no row of the MSA has a non-null
`SALARY_TO`, the max is NaN and `int(NaN)` raises — the fatal condition the
spec names `EmptySalaryDomainError` — instead of defaulting to zero. -/
def salaryUpperBound (rows : List Row) : Except String Int :=
  match seriesMax (salaryToVals rows) with
  | none => .error "EmptySalaryDomainError: cannot convert float NaN to integer"
  | some m => .ok (pyInt m)

/-- A row whose salary ceiling is 100. -/
def salRowA : Row := { salary_to := some 100 }

/-- A row whose salary ceiling is 123. -/
def salRowB : Row := { salary_to := some 123 }

theorem optGe_isSome {o : Option ℚ} {c : ℚ} (h : optGe o c = true) : o.isSome := by
  cases o with
  | none => simp [optGe] at h
  | some v => rfl

theorem optLe_isSome {o : Option ℚ} {c : ℚ} (h : optLe o c = true) : o.isSome := by
  cases o with
  | none => simp [optLe] at h
  | some v => rfl

theorem employmentStage_eq_filter (cats : List String) (rows : List Row) :
    employmentStage cats rows =
      rows.filter (fun r => cats.isEmpty || memCat r.employment_type cats) := by
  unfold employmentStage
  cases h : cats.isEmpty <;> simp [h]

theorem remoteStage_eq_filter (cats : List String) (rows : List Row) :
    remoteStage cats rows =
      rows.filter (fun r => cats.isEmpty || memCat r.remote_type cats) := by
  unfold remoteStage
  cases h : cats.isEmpty <;> simp [h]

/-- **C1.** The Filter Engine's output is exactly the subset of rows
satisfying the conjunction of all five predicate groups: the staged filter
of `app.py` lines 65–75 equals a single `filter` by `keepRowSpec`; an empty
employment-type selection leaves the row set unchanged at its stage; and a
row whose compared numeric field is null fails the range conjunction. -/
theorem c1_filter_engine_conjunction (spec : FilterSpec) (rows : List Row) :
    filteredDf spec rows = rows.filter (keepRowSpec spec) ∧
    employmentStage [] rows = rows ∧
    (∀ r : Row, r.min_years_experience = none ∨ r.max_years_experience = none ∨
        r.salary_from = none ∨ r.salary_to = none → keepRowSpec spec r = false) := by
  refine ⟨?_, rfl, ?_⟩
  · unfold filteredDf rangeStage
    rw [employmentStage_eq_filter, remoteStage_eq_filter]
    simp only [List.filter_filter]
    refine List.filter_congr ?_
    intro a _
    simp only [keepRowSpec]
    cases spec.employment_types.isEmpty <;>
      cases memCat a.employment_type spec.employment_types <;>
        cases spec.remote_types.isEmpty <;>
          cases memCat a.remote_type spec.remote_types <;>
            cases optGe a.min_years_experience spec.min_exp <;>
              cases optLe a.max_years_experience spec.max_exp <;>
                cases optGe a.salary_from spec.salary_lo <;>
                  cases optLe a.salary_to spec.salary_hi <;> rfl
  · intro r h
    rcases h with h | h | h | h <;> simp [keepRowSpec, h, optGe, optLe]

/-- Concrete instantiation of `c1_filter_engine_conjunction`. -/
theorem c1_filter_engine_conjunction_witness :
    filteredDf {} [sampleRow] = [sampleRow].filter (keepRowSpec {}) ∧
    keepRowSpec {} nullRow = false :=
  ⟨(c1_filter_engine_conjunction {} [sampleRow]).1,
   (c1_filter_engine_conjunction {} []).2.2 nullRow (Or.inl rfl)⟩

/-- **C8 (counterexample).** The salary filter with range (60000, 100000) on
the spec's three-row example does *not* keep only the first row: it keeps
only the second row, since `50000 ≥ 60000` is false. -/
theorem c8_counterexample :
    salaryFilter 60000 100000 specScenarioRows ≠ [specRow1] ∧
    salaryFilter 60000 100000 specScenarioRows = [specRow2] := by decide

/-- **C8 (amended).** The salary filter with range (60000, 100000) applied to
the spec's three-row example keeps only the second row (the (80000, 90000)
row), and both salary comparisons are inclusive: a row with
`salary_from = 60000` and `salary_to = 100000` is kept under that range. -/
theorem c8_salary_filter_scenario :
    salaryFilter 60000 100000 specScenarioRows = [specRow2] ∧
    salaryFilter 60000 100000 [boundaryRow] = [boundaryRow] := by decide

/-- **C10.** Every row surviving the range filter (the last stage of
`filteredDf`) has non-null `MIN_YEARS_EXPERIENCE`, `MAX_YEARS_EXPERIENCE`,
`SALARY_FROM` and `SALARY_TO`: pandas comparisons against null are false, so
such rows are dropped before the salary-distribution step runs. -/
theorem c10_filtered_rows_nonnull (spec : FilterSpec) (rows : List Row) (r : Row)
    (h : r ∈ filteredDf spec rows) :
    r.min_years_experience.isSome ∧ r.max_years_experience.isSome ∧
    r.salary_from.isSome ∧ r.salary_to.isSome := by
  simp only [filteredDf, rangeStage] at h
  have hp := (List.mem_filter.mp h).2
  simp only [Bool.and_eq_true] at hp
  obtain ⟨⟨⟨h1, h2⟩, h3⟩, h4⟩ := hp
  exact ⟨optGe_isSome h1, optLe_isSome h2, optGe_isSome h3, optLe_isSome h4⟩

/-- Concrete instantiation of `c10_filtered_rows_nonnull`. -/
theorem c10_filtered_rows_nonnull_witness :
    sampleRow.min_years_experience.isSome ∧ sampleRow.max_years_experience.isSome ∧
    sampleRow.salary_from.isSome ∧ sampleRow.salary_to.isSome :=
  c10_filtered_rows_nonnull {} [sampleRow] sampleRow (by decide)

/-- **C5.** Remote-type normalization maps a null cell and the literal text
`"[None]"` to `"Unspecified"`, and trims surrounding whitespace from every
other value, so `"  Hybrid  "` becomes `"Hybrid"`. -/
theorem c5_remote_normalization :
    normalizeRemote none = "Unspecified" ∧
    normalizeRemote (some "[None]") = "Unspecified" ∧
    normalizeRemote (some "  Hybrid  ") = "Hybrid" ∧
    (∀ s : String, s ≠ "[None]" → normalizeRemote (some s) = pyStrip s) := by
  refine ⟨by decide, by decide, by decide, ?_⟩
  intro s hs
  simp [normalizeRemote, replaceNoneSentinel, fillnaUnspecified, hs]

/-- Concrete instantiation of `c5_remote_normalization`. -/
theorem c5_remote_normalization_witness : normalizeRemote (some "Remote") = "Remote" :=
  (c5_remote_normalization.2.2.2 "Remote" (by decide)).trans (by decide)

theorem salaryContrib_eq_filterMap (t : List Row) :
    salaryContrib t = t.filterMap averageSalary := by
  simp only [salaryContrib, salaryDistStep, assignAverageSalary, List.filterMap_map]
  rfl

/-- **C2 (counterexample).** A row missing only one salary bound does *not*
yield a null average: pandas `mean(axis=1)` skips nulls, so the row
contributes its present bound, and a row set in which every row has a null
`salary_from` or `salary_to` can produce a non-empty distribution. -/
theorem c2_counterexample :
    averageSalary halfNullRow = some 50000 ∧ salaryContrib [halfNullRow] = [50000] := by
  decide

/-- **C2 (amended).** `average_salary` is the mean of both bounds when both
are present; it is null exactly when *both* bounds are null (a row missing
only one bound contributes the present bound alone, by `skipna`); and on a
row set where every row has both salary bounds null the histogram's
distribution is empty, not an error. -/
theorem c2_average_salary_skipna :
    (∀ (r : Row) (a b : ℚ), r.salary_from = some a → r.salary_to = some b →
      averageSalary r = some ((a + b) / 2)) ∧
    (∀ r : Row, averageSalary r = none ↔ (r.salary_from = none ∧ r.salary_to = none)) ∧
    (∀ t : List Row, (∀ r ∈ t, r.salary_from = none ∧ r.salary_to = none) →
      salaryContrib t = []) := by
  refine ⟨?_, ?_, ?_⟩
  · intro r a b ha hb
    simp [averageSalary, ha, hb]
  · intro r
    unfold averageSalary
    cases r.salary_from <;> cases r.salary_to <;> simp
  · intro t h
    rw [salaryContrib_eq_filterMap]
    refine List.filterMap_eq_nil_iff.mpr ?_
    intro r hr
    have hn := h r hr
    simp [averageSalary, hn.1, hn.2]

/-- Concrete instantiation of `c2_average_salary_skipna`. -/
theorem c2_average_salary_skipna_witness :
    averageSalary sampleRow = some ((5 + 6) / 2) ∧ salaryContrib [nullRow] = [] :=
  ⟨c2_average_salary_skipna.1 sampleRow 5 6 rfl rfl,
   c2_average_salary_skipna.2.2 [nullRow] (by decide)⟩

theorem explodeCell_length (xs : List String) : (explodeCell xs).length = max xs.length 1 := by
  cases xs with
  | nil => rfl
  | cons x xs => simp [explodeCell]

/-- **C3 (counterexample).** Exploding a row whose sequence is empty yields
one output row (with a null cell), not zero: the post-explode row count is
not `sum(len(sequence))`. -/
theorem c3_counterexample :
    (explodeRows (fun r => r.specialized_skills) [nullRow]).length ≠
      ([nullRow].map (fun r => r.specialized_skills.length)).sum := by
  decide

/-- **C3 (amended).** The post-explode row count is
`sum(max(len(sequence), 1))`: each sequence element yields one output row
and a row with an *empty* sequence contributes one null output row; when
every row's sequence is non-empty the count is exactly
`sum(len(sequence))`. -/
theorem c3_explode_row_count (col : Row → List String) (t : List Row) :
    (explodeRows col t).length = (t.map (fun r => max (col r).length 1)).sum ∧
    ((∀ r ∈ t, col r ≠ []) →
      (explodeRows col t).length = (t.map (fun r => (col r).length)).sum) := by
  constructor
  · induction t with
    | nil => rfl
    | cons r t ih => simp [explodeRows, explodeCell_length, List.flatMap_cons] at ih ⊢; omega
  · intro h
    induction t with
    | nil => rfl
    | cons r t ih =>
      have hr : col r ≠ [] := h r (List.mem_cons_self r t)
      have ht : ∀ x ∈ t, col x ≠ [] := fun x hx => h x (List.mem_cons_of_mem r hx)
      have hlen : (explodeCell (col r)).length = (col r).length := by
        rw [explodeCell_length]
        cases hc : col r with
        | nil => exact absurd hc hr
        | cons y ys => simp
      simp [explodeRows, List.flatMap_cons, hlen] at ih ⊢
      rw [ih ht]

/-- Concrete instantiation of `c3_explode_row_count`. -/
theorem c3_explode_row_count_witness :
    (explodeRows (fun r => r.specialized_skills) [skillRowAB]).length =
      ([skillRowAB].map (fun r => r.specialized_skills.length)).sum :=
  (c3_explode_row_count (fun r => r.specialized_skills) [skillRowAB]).2 (by decide)

theorem pdUniqueAux_subset {a : String} :
    ∀ (seen xs : List String), a ∈ pdUniqueAux seen xs → a ∈ xs := by
  intro seen xs
  induction xs generalizing seen with
  | nil => intro h; exact absurd h (List.not_mem_nil a)
  | cons x xs ih =>
    intro h
    unfold pdUniqueAux at h
    by_cases hx : x ∈ seen
    · simp only [hx, if_true] at h
      exact List.mem_cons_of_mem x (ih seen h)
    · simp only [hx, if_false] at h
      rcases List.mem_cons.mp h with h | h
      · exact h ▸ List.mem_cons_self x xs
      · exact List.mem_cons_of_mem x (ih (x :: seen) h)

theorem mem_valueCounts_fst {cells : List (Option String)} {p : String × Nat}
    (h : p ∈ valueCounts cells) : some p.1 ∈ cells := by
  unfold valueCounts at h
  rw [List.mem_insertionSort] at h
  obtain ⟨c, hc, hcp⟩ := List.mem_map.mp h
  have hv : c ∈ cells.filterMap id := pdUniqueAux_subset [] _ hc
  obtain ⟨o, ho, hoc⟩ := List.mem_filterMap.mp hv
  have : o = some c := hoc
  subst hcp
  exact this ▸ ho

theorem mem_nlargest {n : Nat} {ps : List (String × Nat)} {p : String × Nat}
    (h : p ∈ nlargest n ps) : p ∈ ps := by
  unfold nlargest at h
  exact (List.mem_insertionSort _).mp (List.mem_of_mem_take h)

theorem sentinel_not_mem_top (f : Row → Option String) (sentinel : String) (t : List Row) :
    ∀ p ∈ nlargest 10 (valueCounts
      ((t.filter (fun r => !(f r == some sentinel))).map f)), p.1 ≠ sentinel := by
  intro p hp hEq
  have h1 := mem_valueCounts_fst (mem_nlargest hp)
  obtain ⟨r, hr, hfr⟩ := List.mem_map.mp h1
  have hpred := (List.mem_filter.mp hr).2
  rw [hfr, hEq] at hpred
  simp at hpred

/-- **C4.** `top_industries`, `top_occupations` and `top_companies` never
emit their sentinel category (`'Unclassified Industry'`,
`'Unclassified Occupation'`, `'Unclassified'`), whatever the input rows —
in particular even when the sentinel is the most frequent value. -/
theorem c4_sentinels_excluded (t : List Row) :
    (∀ p ∈ topIndustries t, p.1 ≠ "Unclassified Industry") ∧
    (∀ p ∈ topOccupations t, p.1 ≠ "Unclassified Occupation") ∧
    (∀ p ∈ topCompanies t, p.1 ≠ "Unclassified") :=
  ⟨sentinel_not_mem_top (fun r => r.naics2) "Unclassified Industry" t,
   sentinel_not_mem_top (fun r => r.soc_name) "Unclassified Occupation" t,
   sentinel_not_mem_top (fun r => r.company) "Unclassified" t⟩

/-- Concrete instantiation of `c4_sentinels_excluded` on the spec's
three-row scenario, where the only industries are `"Tech"` (twice) and the
sentinel. -/
theorem c4_sentinels_excluded_witness :
    ("Tech", 2) ∈ topIndustries specScenarioRows ∧ ("Tech" : String) ≠ "Unclassified Industry" :=
  ⟨by decide, (c4_sentinels_excluded specScenarioRows).1 ("Tech", 2) (by decide)⟩

/-- **C9 (counterexample).** The salary-distribution step is not
side-effect-free on its input: it adds the `Average_Salary` column to the
filtered row set in place (line 116 of `app.py`), so the table it leaves
behind differs from the table it consumed. -/
theorem c9_counterexample : (salaryDistStep [sampleRow]).1 ≠ [sampleRow] := by decide

/-- **C9 (amended).** Every aggregation except the salary-distribution step
leaves the filtered row set unchanged; the salary-distribution step changes
it only by assigning the `Average_Salary` column (erasing that column
recovers the input), and no step adds, removes or reorders rows. -/
theorem c9_aggregations_frame (col : Row → List String) (t : List Row) :
    (topIndustriesStep t).1 = t ∧ (topOccupationsStep t).1 = t ∧
    (topSkillsStep t).1 = t ∧ (topCompaniesStep t).1 = t ∧
    (educationMixStep t).1 = t ∧ (skillByIndustryStep col t).1 = t ∧
    (salaryDistStep t).1.map eraseAverageSalary = t.map eraseAverageSalary ∧
    (salaryDistStep t).1.length = t.length := by
  refine ⟨rfl, rfl, rfl, rfl, rfl, rfl, ?_, ?_⟩
  · show (assignAverageSalary t).map eraseAverageSalary = t.map eraseAverageSalary
    rw [assignAverageSalary, List.map_map]
    rfl
  · show (assignAverageSalary t).length = t.length
    exact List.length_map t _

/-- **C6 (counterexample).** Re-applying the normalizer to an
already-normalized *non-empty* sequence is not a no-op: the guard is truthy
and `ast.literal_eval` rejects a non-string argument, so the cell fails to
load instead of passing through. -/
theorem c6_counterexample :
    cleanSkillCell (Cell.seq ["a"]) = Except.error "literal_eval: malformed node or string" ∧
    (cleanSkillCell (Cell.seq ["a"])).isOk = false := ⟨rfl, rfl⟩

/-- **C6 (amended).** The normalizer maps a null cell to an empty sequence
and re-applying it to an already-normalized *empty* sequence is a no-op
(the empty elementwise `notnull` array is falsy); but re-applying it to a
non-empty already-normalized sequence fails rather than passing the value
through. -/
theorem c6_normalizer_null_empty :
    cleanSkillCell Cell.null = Except.ok (Cell.seq []) ∧
    cleanSkillCell (Cell.seq []) = Except.ok (Cell.seq []) ∧
    (∀ (s : String) (ss : List String),
      (cleanSkillCell (Cell.seq (s :: ss))).isOk = false) := by
  refine ⟨rfl, rfl, ?_⟩
  intro s ss
  cases ss <;> rfl

theorem foldl_max_mem (v : ℚ) (vs : List ℚ) : vs.foldl max v ∈ v :: vs := by
  induction vs generalizing v with
  | nil => simp [List.foldl]
  | cons w ws ih =>
    rw [List.foldl_cons]
    rcases List.mem_cons.mp (ih (max v w)) with h | h
    · rcases max_choice v w with h2 | h2
      · rw [List.mem_cons]
        exact Or.inl (h.trans h2)
      · rw [List.mem_cons, List.mem_cons]
        exact Or.inr (Or.inl (h.trans h2))
    · exact List.mem_cons_of_mem v (List.mem_cons_of_mem w h)

theorem foldl_max_le (v : ℚ) (vs : List ℚ) : ∀ x ∈ v :: vs, x ≤ vs.foldl max v := by
  induction vs generalizing v with
  | nil =>
    intro x hx
    rw [List.mem_singleton] at hx
    simp [hx, List.foldl]
  | cons w ws ih =>
    intro x hx
    rw [List.foldl_cons]
    rcases List.mem_cons.mp hx with h | h
    · subst h
      exact le_trans (le_max_left x w) (ih (max x w) (max x w) (List.mem_cons_self _ _))
    · rcases List.mem_cons.mp h with h2 | h2
      · subst h2
        exact le_trans (le_max_right v x) (ih (max v x) (max v x) (List.mem_cons_self _ _))
      · exact ih (max v w) x (List.mem_cons_of_mem _ h2)

/-- **C7.** The salary-slider upper bound is the maximum non-null
`SALARY_TO` of the per-MSA row set rounded down to an integer (salaries
being non-negative), and when no row has a non-null `SALARY_TO` the
computation fails with the fatal empty-salary-domain error rather than
silently producing zero. -/
theorem c7_salary_upper_bound (rows : List Row) :
    ((∀ r ∈ rows, r.salary_to = none) →
      salaryUpperBound rows =
        .error "EmptySalaryDomainError: cannot convert float NaN to integer") ∧
    (∀ m : ℚ, m ∈ salaryToVals rows → (∀ v ∈ salaryToVals rows, v ≤ m) → 0 ≤ m →
      salaryUpperBound rows = .ok ⌊m⌋) := by
  constructor
  · intro h
    have hnil : salaryToVals rows = [] := List.filterMap_eq_nil_iff.mpr h
    simp [salaryUpperBound, hnil, seriesMax]
  · intro m hm hub h0
    unfold salaryUpperBound
    cases hv : salaryToVals rows with
    | nil => rw [hv] at hm; exact absurd hm (List.not_mem_nil m)
    | cons v vs =>
      rw [hv] at hm hub
      have h1 : vs.foldl max v ≤ m := hub _ (foldl_max_mem v vs)
      have h2 : m ≤ vs.foldl max v := foldl_max_le v vs m hm
      have heq : vs.foldl max v = m := le_antisymm h1 h2
      simp [seriesMax, heq, pyInt, h0]

/-- Concrete instantiation of `c7_salary_upper_bound`: the maximum ceiling
123 is the slider bound, and an all-null column is a fatal error. -/
theorem c7_salary_upper_bound_witness :
    salaryUpperBound [salRowA, salRowB] = .ok 123 ∧
    salaryUpperBound [nullRow] =
      .error "EmptySalaryDomainError: cannot convert float NaN to integer" := by
  constructor
  · rw [(c7_salary_upper_bound [salRowA, salRowB]).2 123 (by decide) (by decide) (by decide)]
    norm_num
  · exact (c7_salary_upper_bound [nullRow]).1 (by decide)
